import Mathlib

/-!
Verification of the Pisk-Click gesture-to-pointer control engine.

Shallow embedding of the algorithmic core of the repository:
* `calibration_module.py` — `CalibrationAlgorithm.calibrate_ear_threshold`
  and `CalibrationAlgorithm._remove_outliers`;
* `main.py` — `FaceController.calculate_ear`, `MouseController.move_mouse`,
  `MouseController._map_value`, `MouseController.click`, and the per-frame
  click-processing block of `Application.run`.

Machine real numbers of the source (Python floats) are modelled as exact
rationals; times are rationals; Python ints are modelled as `Int`/`Nat`.
-/

namespace PiskClick

/-- Python `int(x)` — truncation toward zero. -/
def pyInt (q : ℚ) : ℤ := if 0 ≤ q then ⌊q⌋ else -⌊-q⌋

/-- Python `sorted(xs)` — ascending sort.  Implemented by insertion sort;
only the sorted sequence of values matters to every caller (indexing,
median, percentile), so any ascending sort of the same multiset is an
exact model of `sorted`. -/
def sortAsc (l : List ℚ) : List ℚ := List.insertionSort (· ≤ ·) l

/-- Python `xs[i]` on a list of floats: nonnegative indices from the front,
negative indices wrap from the back (`xs[-1]` is the last element).  An index
out of range raises `IndexError` in Python; that case is unreachable in every
use below (the caller clamps the index first) and is given the junk value 0. -/
def pyIndex (l : List ℚ) (i : ℤ) : ℚ :=
  if 0 ≤ i then l.getD i.toNat 0 else l.getD ((l.length : ℤ) + i).toNat 0

/-- `numpy.percentile(data, q)` with the default linear interpolation:
on the ascending sort `s` of `data`, position `(n-1)*q/100` is split into
integer part `i` and fraction `g`, and the result is
`s[i] + g * (s[i+1] - s[i])` (the last element when `i` is already last). -/
def npPercentile (data : List ℚ) (q : ℚ) : ℚ :=
  let s := sortAsc data
  let n := s.length
  if n = 0 then 0
  else
    let pos : ℚ := ((n : ℚ) - 1) * q / 100
    let i : ℕ := (⌊pos⌋).toNat
    let g : ℚ := pos - (i : ℚ)
    let lo := s.getD i 0
    let hi := s.getD (min (i + 1) (n - 1)) 0
    lo + g * (hi - lo)

/-- `CalibrationConfig` dataclass of `calibration_module.py`. -/
structure CalibrationConfig where
  ear_collection_duration : ℕ := 10
  min_data_points : ℕ := 50
  ear_percentile_threshold : ℚ := 5
  ear_min_threshold : ℚ := 1/10
  ear_max_threshold : ℚ := 3/10
  deriving DecidableEq

/-- `CalibrationAlgorithm._remove_outliers`: IQR outlier rejection.
Data of fewer than 4 points is returned unchanged; otherwise only samples
inside `[Q1 - 1.5*IQR, Q3 + 1.5*IQR]` are kept. -/
def remove_outliers (data : List ℚ) : List ℚ :=
  if data.length < 4 then data
  else
    let q1 := npPercentile data 25
    let q3 := npPercentile data 75
    let iqr := q3 - q1
    let lower_bound := q1 - 3/2 * iqr
    let upper_bound := q3 + 3/2 * iqr
    data.filter (fun x => decide (lower_bound ≤ x) && decide (x ≤ upper_bound))

/-- Steps 4–5 of `calibrate_ear_threshold` on an already chosen working set:
sort ascending, take the element at index `int(len * percentile / 100)`
(clamped to the last valid index), and clamp it into the configured band
`[ear_min_threshold, ear_max_threshold]`. -/
def threshold_from (config : CalibrationConfig) (data : List ℚ) : ℚ :=
  let sorted_data := sortAsc data
  let idx0 : ℤ := pyInt ((sorted_data.length : ℚ) * config.ear_percentile_threshold / 100)
  let idx : ℤ := if (sorted_data.length : ℤ) ≤ idx0 then (sorted_data.length : ℤ) - 1 else idx0
  let t := pyIndex sorted_data idx
  max config.ear_min_threshold (min t config.ear_max_threshold)

/-- `CalibrationAlgorithm.calibrate_ear_threshold`:
concatenate the two sample lists, fail on insufficient data, IQR-clean
(falling back to the raw data when cleaning leaves fewer than
`min_data_points // 2` samples), then pick and clamp the percentile value. -/
def calibrate_ear_threshold (open_eyes_data blinking_data : List ℚ)
    (config : CalibrationConfig) : Option ℚ :=
  let all_data := open_eyes_data ++ blinking_data
  if all_data.length < config.min_data_points then none
  else
    let clean_data := remove_outliers all_data
    let working := if clean_data.length < config.min_data_points / 2 then all_data else clean_data
    some (threshold_from config working)

/-! ## Pointer mapping (`MouseController` of `main.py`) -/

/-- Configuration read by `MouseController.move_mouse`: screen size from
`pyautogui.size()`, the `CONTROL_AREA_*`, `INVERT_*_AXIS`,
`SMOOTHING_FACTOR` and `MIN_MOVEMENT_THRESHOLD` constants of `config.py`. -/
structure MouseConfig where
  screen_width : ℚ
  screen_height : ℚ
  ctrl_x_min : ℚ
  ctrl_x_max : ℚ
  ctrl_y_min : ℚ
  ctrl_y_max : ℚ
  invert_x : Bool
  invert_y : Bool
  smoothing : ℚ
  min_movement : ℚ
  deriving DecidableEq

/-- `CursorState`: the last committed smoothed pointer position
(`prev_mouse_x`, `prev_mouse_y` of `MouseController`). -/
structure CursorState where
  prev_mouse_x : ℚ
  prev_mouse_y : ℚ
  deriving DecidableEq

/-- `MouseController._map_value`: clamp `value` into `[from_min, from_max]`,
then linearly remap to `[to_min, to_max]`; a zero source span yields
`to_min` instead of dividing by zero. -/
def map_value (value from_min from_max to_min to_max : ℚ) : ℚ :=
  let v := max (min value from_max) from_min
  let from_span := from_max - from_min
  let to_span := to_max - to_min
  if from_span = 0 then to_min
  else to_min + (v - from_min) / from_span * to_span

/-- Target position of `move_mouse` before smoothing: control-area mapping,
axis inversion, sensitivity scaling around the screen center, and the final
clamp to `[0, screen-1]` per axis. -/
def mouse_target (cfg : MouseConfig) (nose : ℚ × ℚ) (sensitivity : ℚ) : ℚ × ℚ :=
  let tx := map_value nose.1 cfg.ctrl_x_min cfg.ctrl_x_max 0 cfg.screen_width
  let ty := map_value nose.2 cfg.ctrl_y_min cfg.ctrl_y_max 0 cfg.screen_height
  let tx := if cfg.invert_x then cfg.screen_width - tx else tx
  let ty := if cfg.invert_y then cfg.screen_height - ty else ty
  let cx := cfg.screen_width / 2
  let cy := cfg.screen_height / 2
  let tx := cx + (tx - cx) * sensitivity
  let ty := cy + (ty - cy) * sensitivity
  (max 0 (min (cfg.screen_width - 1) tx), max 0 (min (cfg.screen_height - 1) ty))

/-- Adaptive smoothing factor of `move_mouse`, chosen from the per-axis
distances between the target and the previous cursor position. -/
def adaptive_smoothing (cfg : MouseConfig) (dx dy : ℚ) : ℚ :=
  if 50 < dx ∨ 50 < dy then min (8/10) (cfg.smoothing * 2)
  else if dx < 10 ∧ dy < 10 then max (1/10) (cfg.smoothing * (1/2))
  else cfg.smoothing

/-- The smoothed candidate position `current_mouse_x/y` of `move_mouse`. -/
def mouse_newpos (cfg : MouseConfig) (st : CursorState) (nose : ℚ × ℚ)
    (sensitivity : ℚ) : ℚ × ℚ :=
  let t := mouse_target cfg nose sensitivity
  let s := adaptive_smoothing cfg |t.1 - st.prev_mouse_x| |t.2 - st.prev_mouse_y|
  (st.prev_mouse_x + (t.1 - st.prev_mouse_x) * s,
   st.prev_mouse_y + (t.2 - st.prev_mouse_y) * s)

/-- `MouseController.move_mouse`: returns the move request issued to the
pointer surface (`pyautogui.moveTo` receives `int`-truncated coordinates),
or `none` when no move is issued, together with the updated `CursorState`.
The request succeeds in this model (a fail-safe rejection in the source is
logged and likewise leaves `prev_mouse_x/y` unchanged). -/
def move_mouse (cfg : MouseConfig) (st : CursorState) (nose : ℚ × ℚ)
    (sensitivity : ℚ) : Option (ℤ × ℤ) × CursorState :=
  let n := mouse_newpos cfg st nose sensitivity
  if cfg.min_movement ≤ |n.1 - st.prev_mouse_x| ∨ cfg.min_movement ≤ |n.2 - st.prev_mouse_y| then
    if 0 ≤ n.1 ∧ n.1 < cfg.screen_width ∧ 0 ≤ n.2 ∧ n.2 < cfg.screen_height then
      (some (pyInt n.1, pyInt n.2), ⟨n.1, n.2⟩)
    else (none, st)
  else (none, st)

/-! ## Click debounce and the per-frame gesture state machine -/

/-- The two click channels of `MouseController.click`. -/
inductive Button
  | left
  | right
  deriving DecidableEq

/-- Debounce timers of `MouseController`
(`last_left_click_time`, `last_right_click_time`). -/
structure ClickTimers where
  last_left_click_time : ℚ
  last_right_click_time : ℚ
  deriving DecidableEq

/-- `MouseController.click`: commit a click on a channel only when strictly
more than `CLICK_DEBOUNCE_TIME` has passed since that channel's
`last*_click_time`; a committed click updates the timer and returns `True`.
(`pyautogui.click` succeeds in this model; when it raises in the source the
timer is likewise left unchanged and `False` is returned.) -/
def click (debounce : ℚ) (button : Button) (current_time : ℚ)
    (st : ClickTimers) : Bool × ClickTimers :=
  match button with
  | .left =>
      if debounce < current_time - st.last_left_click_time then
        (true, { st with last_left_click_time := current_time })
      else (false, st)
  | .right =>
      if debounce < current_time - st.last_right_click_time then
        (true, { st with last_right_click_time := current_time })
      else (false, st)

/-- Configuration of the per-frame click-processing block of
`Application.run`: `DOUBLE_BLINK_PROTECTION`, `DOUBLE_BLINK_THRESHOLD`,
`DOUBLE_BLINK_COOLDOWN`, `BLINK_CONSECUTIVE_FRAMES`, `CLICK_DEBOUNCE_TIME`. -/
structure AppConfig where
  double_blink_protection : Bool
  double_blink_threshold : ℚ
  double_blink_cooldown : ℚ
  blink_consecutive_frames : ℕ
  click_debounce_time : ℚ
  deriving DecidableEq

/-- Mutable state of the click-processing block of `Application`:
per-eye consecutive-frame counters, the double-blink guard timestamp, and
the `MouseController` debounce timers. -/
structure AppState where
  left_blink_counter : ℕ
  right_blink_counter : ℕ
  double_blink_detected_time : ℚ
  timers : ClickTimers
  deriving DecidableEq

/-- The per-processed-frame click-processing block of `Application.run`
(`main.py`): double-blink detection and guard arming, the cooldown check
(computed from the guard timestamp as it was at the start of the frame),
and the two independent per-eye counter/fire branches.  Returns
`(left fired, right fired, new state)`. -/
def process_clicks (cfg : AppConfig) (st : AppState)
    (left_ear right_ear dynamic_threshold current_time : ℚ) :
    Bool × Bool × AppState :=
  let both_eyes_closed := left_ear < dynamic_threshold ∧ right_ear < dynamic_threshold
  let cooldown_active := current_time - st.double_blink_detected_time < cfg.double_blink_cooldown
  let st :=
    if cfg.double_blink_protection = true ∧ both_eyes_closed ∧
        |left_ear - right_ear| ≤ cfg.double_blink_threshold then
      { st with double_blink_detected_time := current_time,
                left_blink_counter := 0, right_blink_counter := 0 }
    else st
  if cooldown_active then
    (false, false, { st with left_blink_counter := 0, right_blink_counter := 0 })
  else
    let leftRes :=
      if left_ear < dynamic_threshold ∧
          ¬ (both_eyes_closed ∧ cfg.double_blink_protection = true) then
        (false, { st with left_blink_counter := st.left_blink_counter + 1 })
      else
        let fired :=
          if cfg.blink_consecutive_frames ≤ st.left_blink_counter then
            click cfg.click_debounce_time .left current_time st.timers
          else (false, st.timers)
        (fired.1, { st with left_blink_counter := 0, timers := fired.2 })
    let st := leftRes.2
    let rightRes :=
      if right_ear < dynamic_threshold ∧
          ¬ (both_eyes_closed ∧ cfg.double_blink_protection = true) then
        (false, { st with right_blink_counter := st.right_blink_counter + 1 })
      else
        let fired :=
          if cfg.blink_consecutive_frames ≤ st.right_blink_counter then
            click cfg.click_debounce_time .right current_time st.timers
          else (false, st.timers)
        (fired.1, { st with right_blink_counter := 0, timers := fired.2 })
    (leftRes.1, rightRes.1, rightRes.2)

/-! ## Feature extraction (`FaceController` of `main.py`) -/

/-- `numpy.median` of a list: middle element of the ascending sort, or the
mean of the two middle elements for even length.  (Empty input is
unreachable in every use: the filter window always holds the value just
appended.) -/
def np_median (l : List ℚ) : ℚ :=
  let s := sortAsc l
  let n := s.length
  if n = 0 then 0
  else if n % 2 = 1 then s.getD (n / 2) 0
  else (s.getD (n / 2 - 1) 0 + s.getD (n / 2) 0) / 2

/-- Which eye's filter window `calculate_ear` updates (`eye_side`). -/
inductive EyeSide
  | left
  | right
  deriving DecidableEq

/-- Mutable state of `FaceController`: the shared auto-calibration
accumulation buffer (`ear_history`, `calibration_frames`, `baseline_ear`,
`is_calibrated`; created as `[], 0, 0.3, False`) and the two per-eye
5-sample filter windows. -/
structure FaceState where
  ear_history : List ℚ
  calibration_frames : ℕ
  baseline_ear : ℚ
  is_calibrated : Bool
  left_ear_history : List ℚ
  right_ear_history : List ℚ
  deriving DecidableEq

/-- Squared Euclidean distance of two integer pixel points.
`FaceController._calculate_distance` returns `math.sqrt` of this value;
for every comparison of a distance against `1.0` the squared form is
equivalent (`sqrt d < 1 ↔ d < 1` for `d ≥ 0`). -/
def distSq (p q : ℤ × ℤ) : ℤ := (p.1 - q.1) ^ 2 + (p.2 - q.2) ^ 2

/-- Size of each per-eye filter window (`self.filter_size = 5`). -/
def filter_size : ℕ := 5

/-- `FaceController.calculate_ear`, parametrised by the square-root routine
`sq` applied to the squared integer distances: the source computes
`math.sqrt` of the squared pixel distances, which is irrational in general,
so the embedding quantifies over the routine instead of fixing it — every
theorem below holds for each `sq`, in particular the true square root.
Input is the eye contour as integer pixel points (the source casts each
landmark to `int` pixels before measuring).  Returns the value the source
returns together with the updated `FaceState`: degenerate or out-of-range
contours return the current baseline and leave the state untouched;
otherwise the raw EAR is pushed into the eye's filter window, the window
median is the result, and the first 30 processed samples feed the
auto-calibration buffer, whose 30th sample fixes `baseline_ear` as the mean
of the upper 70% of the sorted buffer. -/
def calculate_ear (sq : ℤ → ℚ) (st : FaceState) (eye_landmarks : List (ℤ × ℤ))
    (eye_side : EyeSide) : ℚ × FaceState :=
  if eye_landmarks.length ≠ 6 then (st.baseline_ear, st)
  else
    let p1 := eye_landmarks.getD 0 (0, 0)
    let p2 := eye_landmarks.getD 1 (0, 0)
    let p3 := eye_landmarks.getD 2 (0, 0)
    let p4 := eye_landmarks.getD 3 (0, 0)
    let p5 := eye_landmarks.getD 4 (0, 0)
    let p6 := eye_landmarks.getD 5 (0, 0)
    let vertical_dist1 := sq (distSq p2 p6)
    let vertical_dist2 := sq (distSq p3 p5)
    let horizontal_dist := sq (distSq p1 p4)
    if horizontal_dist < 1 then (st.baseline_ear, st)
    else
      let ear := (vertical_dist1 + vertical_dist2) / (2 * horizontal_dist)
      -- `not np.isfinite(ear)` cannot hold in the exact rational model.
      if ear < 0 ∨ 1 < ear then (st.baseline_ear, st)
      else
        let window :=
          match eye_side with
          | .left => st.left_ear_history ++ [ear]
          | .right => st.right_ear_history ++ [ear]
        let window := if filter_size < window.length then window.drop 1 else window
        let filtered_ear := np_median window
        let st :=
          match eye_side with
          | .left => { st with left_ear_history := window }
          | .right => { st with right_ear_history := window }
        let st :=
          if st.calibration_frames < 30 then
            let hist := st.ear_history ++ [filtered_ear]
            let frames := st.calibration_frames + 1
            if frames = 30 then
              let sorted_ears := sortAsc hist
              let top := sorted_ears.drop (pyInt ((sorted_ears.length : ℚ) * 3/10)).toNat
              { st with ear_history := hist, calibration_frames := frames,
                        baseline_ear := top.sum / (top.length : ℚ), is_calibrated := true }
            else { st with ear_history := hist, calibration_frames := frames }
          else st
        (filtered_ear, st)

/-- `FaceController.get_dynamic_threshold`: 70% of the calibrated baseline,
or the static `EAR_THRESHOLD` before calibration finishes. -/
def get_dynamic_threshold (st : FaceState) (ear_threshold : ℚ) : ℚ :=
  if st.is_calibrated then st.baseline_ear * (7/10) else ear_threshold

/-! ## Theorems -/

/-- Claim C4: for every pair of input sample lists whose combined length is
less than `config.minDataPoints`, `calibrateEarThreshold` returns `None`
(the explicit insufficient-data failure); no threshold value is produced in
that case. -/
theorem calibrate_insufficient_data_none (open_eyes_data blinking_data : List ℚ)
    (config : CalibrationConfig)
    (h : (open_eyes_data ++ blinking_data).length < config.min_data_points) :
    calibrate_ear_threshold open_eyes_data blinking_data config = none := by
  simp only [calibrate_ear_threshold]
  rw [if_pos h]

/-- Witness for C4: 10 total samples against `minDataPoints = 50` yield
`None`. -/
theorem calibrate_insufficient_data_none_witness :
    calibrate_ear_threshold (List.replicate 5 (3/10)) (List.replicate 5 (1/10))
      ⟨10, 50, 5, 1/10, 3/10⟩ = none :=
  calibrate_insufficient_data_none _ _ _ (by simp)

/-- Claim C10: `_map_value` is total — a degenerate source interval
(`from_min = from_max`) yields `to_min` instead of dividing by zero, and in
every case the result lies between `to_min` and `to_max` because the input
is clamped into `[from_min, from_max]` first. -/
theorem map_value_total_bounds (value from_min from_max to_min to_max : ℚ) :
    (from_min = from_max →
      map_value value from_min from_max to_min to_max = to_min) ∧
    min to_min to_max ≤ map_value value from_min from_max to_min to_max ∧
    map_value value from_min from_max to_min to_max ≤ max to_min to_max := by
  by_cases h0 : from_max - from_min = 0
  · have h2 : map_value value from_min from_max to_min to_max = to_min := by
      simp [map_value, h0]
    exact ⟨fun _ => h2, by rw [h2]; exact min_le_left _ _,
      by rw [h2]; exact le_max_left _ _⟩
  · have h1 : from_min ≠ from_max := fun h => h0 (by rw [h]; ring)
    have hval : map_value value from_min from_max to_min to_max
        = to_min + (max (min value from_max) from_min - from_min)
            / (from_max - from_min) * (to_max - to_min) := by
      simp [map_value, h0]
    set v := max (min value from_max) from_min with hv
    set s := (v - from_min) / (from_max - from_min) with hs
    have hs01 : 0 ≤ s ∧ s ≤ 1 := by
      rcases lt_or_gt_of_ne (fun h : from_max = from_min => h0 (by rw [h]; ring))
        with hlt | hgt
      · -- inverted source interval: the clamp collapses to `from_min`
        have hv' : v = from_min := max_eq_right (le_trans (min_le_right _ _) hlt.le)
        rw [hs, hv']
        norm_num
      · have hvl : from_min ≤ v := le_max_right _ _
        have hvu : v ≤ from_max := max_le (min_le_right _ _) hgt.le
        constructor
        · exact div_nonneg (by linarith) (by linarith)
        · rw [div_le_one (by linarith)]; linarith
    have hbound : min to_min to_max ≤ to_min + s * (to_max - to_min) ∧
        to_min + s * (to_max - to_min) ≤ max to_min to_max := by
      rcases le_total to_min to_max with h | h
      · rw [min_eq_left h, max_eq_right h]
        constructor <;>
          nlinarith [mul_nonneg hs01.1 (sub_nonneg.mpr h),
            mul_nonneg (sub_nonneg.mpr hs01.2) (sub_nonneg.mpr h)]
      · rw [min_eq_right h, max_eq_left h]
        constructor <;>
          nlinarith [mul_nonneg hs01.1 (sub_nonneg.mpr h),
            mul_nonneg (sub_nonneg.mpr hs01.2) (sub_nonneg.mpr h)]
    exact ⟨fun h => absurd h h1, by rw [hval]; exact hbound.1,
      by rw [hval]; exact hbound.2⟩

/-- Witness for C10: a degenerate source interval returns `to_min`. -/
theorem map_value_total_bounds_witness : map_value 5 1 1 7 9 = 7 :=
  (map_value_total_bounds 5 1 1 7 9).1 rfl

/-- Claim C1: two fire attempts on the same channel separated by less than
the debounce interval produce exactly one committed action — given that the
first attempt commits, the second returns no committed action and leaves
the channel's `last*_click_time` unchanged. -/
theorem click_debounce_single_commit (debounce t1 t2 : ℚ) (button : Button)
    (st : ClickTimers)
    (hfirst : (click debounce button t1 st).1 = true)
    (hclose : t2 - t1 < debounce) :
    (click debounce button t2 (click debounce button t1 st).2).1 = false ∧
    (click debounce button t2 (click debounce button t1 st).2).2
      = (click debounce button t1 st).2 := by
  cases button <;> simp only [click] at hfirst ⊢
  · by_cases h : debounce < t1 - st.last_left_click_time
    · simp only [if_pos h]
      have h2 : ¬ debounce < t2 - t1 := by linarith
      simp [h2]
    · simp [h] at hfirst
  · by_cases h : debounce < t1 - st.last_right_click_time
    · simp only [if_pos h]
      have h2 : ¬ debounce < t2 - t1 := by linarith
      simp [h2]
    · simp [h] at hfirst

/-- Witness for C1: a committed left click at t=10 suppresses a second
attempt at t=10.5 under a 1-second debounce. -/
theorem click_debounce_single_commit_witness :
    (click 1 Button.left (21/2) (click 1 Button.left 10 ⟨0, 0⟩).2).1 = false :=
  (click_debounce_single_commit 1 10 (21/2) Button.left ⟨0, 0⟩
    (by norm_num [click]) (by norm_num)).1

/-- Counterexample to claim C3 as stated: with a config whose safety band is
inverted (`earMinThreshold = 0.3 > 0.1 = earMaxThreshold`) the function
still returns `Some 0.3`, which does not lie within
`[earMinThreshold, earMaxThreshold]` (that interval is empty). -/
theorem calibrate_band_cex :
    calibrate_ear_threshold [1/5] [] ⟨10, 1, 5, 3/10, 1/10⟩ = some (3/10) ∧
    ¬ ((3:ℚ)/10 ≤ 1/10) := by
  constructor
  · norm_num [calibrate_ear_threshold, remove_outliers, threshold_from, sortAsc,
      pyIndex, pyInt, npPercentile, List.insertionSort, List.orderedInsert,
      min_def, max_def]
  · norm_num

/-- Claim C3 amended: for every pair of input sample lists and every config
whose safety band is well-formed (`earMinThreshold ≤ earMaxThreshold`),
whenever `calibrateEarThreshold` returns `Some threshold`, that threshold
lies within `[earMinThreshold, earMaxThreshold]`. -/
theorem calibrate_band (open_eyes_data blinking_data : List ℚ)
    (config : CalibrationConfig)
    (hband : config.ear_min_threshold ≤ config.ear_max_threshold) (t : ℚ)
    (h : calibrate_ear_threshold open_eyes_data blinking_data config = some t) :
    config.ear_min_threshold ≤ t ∧ t ≤ config.ear_max_threshold := by
  simp only [calibrate_ear_threshold] at h
  split_ifs at h with hlen hclean
  all_goals
    simp only [Option.some.injEq] at h
    rw [← h]
    exact ⟨le_max_left _ _, max_le hband (min_le_right _ _)⟩

/-- Witness for C3 (amended): with the default band `[0.10, 0.30]` a
successful run's threshold stays inside the band. -/
theorem calibrate_band_witness :
    (1:ℚ)/10 ≤ 1/5 ∧ (1:ℚ)/5 ≤ 3/10 :=
  calibrate_band [1/5] [] ⟨10, 1, 5, 1/10, 3/10⟩ (by norm_num) (1/5)
    (by norm_num [calibrate_ear_threshold, remove_outliers, threshold_from, sortAsc,
      pyIndex, pyInt, npPercentile, List.insertionSort, List.orderedInsert,
      min_def, max_def])

/-- Claim C6: for every `EyeContour` (exactly six points) whose horizontal
span `dist(p1, p4)` is less than 1.0, `computeEAR` returns exactly the
current baseline and mutates neither the filter windows nor the calibration
state — the whole `FaceState` is returned untouched.  Quantified over every
square-root routine `sq`, hence in particular the true one. -/
theorem ear_degenerate_returns_baseline (sq : ℤ → ℚ) (st : FaceState)
    (p1 p2 p3 p4 p5 p6 : ℤ × ℤ) (eye_side : EyeSide)
    (hdeg : sq (distSq p1 p4) < 1) :
    calculate_ear sq st [p1, p2, p3, p4, p5, p6] eye_side
      = (st.baseline_ear, st) := by
  simp [calculate_ear, hdeg]

/-- Witness for C6: a contour with `p1 = p4` (zero horizontal span) returns
the initial baseline `0.3` and the untouched initial state. -/
theorem ear_degenerate_returns_baseline_witness :
    calculate_ear (fun _ => 0) ⟨[], 0, 3/10, false, [], []⟩
      [(0, 0), (0, 1), (1, 0), (0, 0), (2, 0), (0, 2)] EyeSide.left
      = (3/10, ⟨[], 0, 3/10, false, [], []⟩) :=
  ear_degenerate_returns_baseline (fun _ => 0) ⟨[], 0, 3/10, false, [], []⟩
    (0, 0) (0, 1) (1, 0) (0, 0) (2, 0) (0, 2) EyeSide.left (by norm_num)

/-- Claim C7: pointer mapping at the control-area center — with the face at
`(0.5, 0.5)`, control area `[0.3, 0.7] × [0.3, 0.7]`, a 1920×1080 screen,
sensitivity 1 and a smoothing factor that is effectively 1 (base factor 1,
and the per-axis deltas from the previous position `(920, 520)` lie in the
base-factor regime `[10, 50]`), the committed target position is
`(960, 540)`. -/
theorem pointer_center_maps_to_screen_center :
    move_mouse ⟨1920, 1080, 3/10, 7/10, 3/10, 7/10, false, false, 1, 2⟩
      ⟨920, 520⟩ (1/2, 1/2) 1 = (some (960, 540), ⟨960, 540⟩) := by
  norm_num [move_mouse, mouse_newpos, mouse_target, adaptive_smoothing, map_value, pyInt,
    min_def, max_def, abs]

/-- Claim C9: IQR outlier removal and its fallback.  (1) For every sample
list of length at least 4, membership in the filtered set is exactly
membership in the original list together with lying inside
`[Q1 - 1.5*IQR, Q3 + 1.5*IQR]`.  (2) On a sample set with a synthetic
extreme outlier the filtering strictly reduces the set size.  (3) Whenever
the filtered set of a sufficient combined sample list has fewer than
`minDataPoints/2` elements, `calibrateEarThreshold` discards the cleaning
step and computes the threshold from the original combined list. -/
theorem iqr_filter_and_fallback :
    (∀ (data : List ℚ), 4 ≤ data.length → ∀ x : ℚ,
        (x ∈ remove_outliers data ↔
          x ∈ data ∧
          npPercentile data 25 - 3/2 * (npPercentile data 75 - npPercentile data 25) ≤ x ∧
          x ≤ npPercentile data 75 + 3/2 * (npPercentile data 75 - npPercentile data 25))) ∧
    ((remove_outliers [28/100, 29/100, 30/100, 31/100, 32/100, 5]).length
        < ([28/100, 29/100, 30/100, 31/100, 32/100, 5] : List ℚ).length) ∧
    (∀ (o b : List ℚ) (cfg : CalibrationConfig),
        ¬ ((o ++ b).length < cfg.min_data_points) →
        (remove_outliers (o ++ b)).length < cfg.min_data_points / 2 →
        calibrate_ear_threshold o b cfg = some (threshold_from cfg (o ++ b))) := by
  refine ⟨?_, ?_, ?_⟩
  · intro data h4 x
    unfold remove_outliers
    rw [if_neg (by omega)]
    simp [List.mem_filter, and_assoc]
  · norm_num [remove_outliers, npPercentile, sortAsc, List.insertionSort, List.orderedInsert,
      List.filter, min_def, max_def, List.getD]
    simp
    norm_num
  · intro o b cfg h1 h2
    simp only [calibrate_ear_threshold]
    rw [if_neg h1, if_pos h2]

/-- Witness for C9: the membership characterisation instantiated at the
synthetic outlier `5` of a concrete six-sample list. -/
theorem iqr_filter_and_fallback_witness :
    (5:ℚ) ∈ remove_outliers [28/100, 29/100, 30/100, 31/100, 32/100, 5] ↔
      (5:ℚ) ∈ ([28/100, 29/100, 30/100, 31/100, 32/100, 5] : List ℚ) ∧
      npPercentile [28/100, 29/100, 30/100, 31/100, 32/100, 5] 25
          - 3/2 * (npPercentile [28/100, 29/100, 30/100, 31/100, 32/100, 5] 75
            - npPercentile [28/100, 29/100, 30/100, 31/100, 32/100, 5] 25) ≤ 5 ∧
      (5:ℚ) ≤ npPercentile [28/100, 29/100, 30/100, 31/100, 32/100, 5] 75
          + 3/2 * (npPercentile [28/100, 29/100, 30/100, 31/100, 32/100, 5] 75
            - npPercentile [28/100, 29/100, 30/100, 31/100, 32/100, 5] 25) :=
  iqr_filter_and_fallback.1 [28/100, 29/100, 30/100, 31/100, 32/100, 5]
    (by norm_num) 5

/-- Claim C2: the double-blink guard — on any processed frame on which both
eyes' EARs are below the dynamic threshold and differ by at most the
double-blink epsilon (protection enabled, at least one consecutive frame
required), the guard is armed (`double_blink_detected_time` becomes the
frame time), both counters end at 0 and neither channel fires; and on any
processed frame while the cooldown is active both counters are forced to 0
and no single-eye click fires. -/
theorem double_blink_guard_blocks_clicks (cfg : AppConfig)
    (hprot : cfg.double_blink_protection = true)
    (hreq : 1 ≤ cfg.blink_consecutive_frames) :
    (∀ (st : AppState) (l r thr now : ℚ), l < thr → r < thr →
        |l - r| ≤ cfg.double_blink_threshold →
        (process_clicks cfg st l r thr now).1 = false ∧
        (process_clicks cfg st l r thr now).2.1 = false ∧
        (process_clicks cfg st l r thr now).2.2.left_blink_counter = 0 ∧
        (process_clicks cfg st l r thr now).2.2.right_blink_counter = 0 ∧
        (process_clicks cfg st l r thr now).2.2.double_blink_detected_time = now) ∧
    (∀ (st : AppState) (l r thr now : ℚ),
        now - st.double_blink_detected_time < cfg.double_blink_cooldown →
        (process_clicks cfg st l r thr now).1 = false ∧
        (process_clicks cfg st l r thr now).2.1 = false ∧
        (process_clicks cfg st l r thr now).2.2.left_blink_counter = 0 ∧
        (process_clicks cfg st l r thr now).2.2.right_blink_counter = 0) := by
  constructor
  · intro st l r thr now hl hr heps
    have harm : cfg.double_blink_protection = true ∧ (l < thr ∧ r < thr) ∧
        |l - r| ≤ cfg.double_blink_threshold := ⟨hprot, ⟨hl, hr⟩, heps⟩
    have hnotincl : ¬ (l < thr ∧ ¬ ((l < thr ∧ r < thr) ∧ cfg.double_blink_protection = true)) :=
      fun h => h.2 ⟨⟨hl, hr⟩, hprot⟩
    have hnotincr : ¬ (r < thr ∧ ¬ ((l < thr ∧ r < thr) ∧ cfg.double_blink_protection = true)) :=
      fun h => h.2 ⟨⟨hl, hr⟩, hprot⟩
    have hz : ¬ (cfg.blink_consecutive_frames ≤ 0) := by omega
    by_cases hcool : now - st.double_blink_detected_time < cfg.double_blink_cooldown <;>
      simp [process_clicks, harm, hcool, hnotincl, hnotincr, hz]
  · intro st l r thr now hcool
    simp [process_clicks, hcool]

/-- Witness for C2: a concrete near-equal double blink (EARs 0.10 and 0.11
against threshold 0.2, epsilon 0.05) arms the guard, fires nothing and
zeroes both counters. -/
theorem double_blink_guard_blocks_clicks_witness :
    (process_clicks ⟨true, 1/20, 1, 2, 1/2⟩ ⟨1, 1, 0, ⟨0, 0⟩⟩
        (1/10) (11/100) (1/5) 100).1 = false ∧
    (process_clicks ⟨true, 1/20, 1, 2, 1/2⟩ ⟨1, 1, 0, ⟨0, 0⟩⟩
        (1/10) (11/100) (1/5) 100).2.2.double_blink_detected_time = 100 := by
  have h := (double_blink_guard_blocks_clicks ⟨true, 1/20, 1, 2, 1/2⟩ rfl
    (by norm_num)).1 ⟨1, 1, 0, ⟨0, 0⟩⟩ (1/10) (11/100) (1/5) 100
    (by norm_num) (by norm_num) (by rw [abs_of_nonpos] <;> norm_num)
  exact ⟨h.1, h.2.2.2.2⟩

/-- Counterexample to claim C5 as stated: a frame outside the cooldown with
the left EAR below threshold (0.1 < 0.2) on which the left counter is NOT
incremented — both eyes are below threshold with protection enabled but
their difference (0.05) exceeds the epsilon (0.04), so the code resets the
counter (from 1 to 0) instead of incrementing it to 2 as the claim
requires. -/
theorem counter_increment_cex :
    (1:ℚ)/10 < 1/5 ∧
    ¬ ((100:ℚ) - 0 < 1) ∧
    (process_clicks ⟨true, 1/25, 1, 2, 1/2⟩ ⟨1, 0, 0, ⟨0, 0⟩⟩
        (1/10) (1/20) (1/5) 100).2.2.left_blink_counter = 0 ∧
    (0 : ℕ) ≠ 1 + 1 := by
  norm_num [process_clicks, click, abs, min_def, max_def]

/-- Claim C5 amended: on every processed frame outside the double-blink
cooldown whose frame does not arm the guard, for each eye independently:
the counter is incremented exactly when that eye's EAR is below the dynamic
threshold AND NOT both eyes are below threshold with double-blink
protection enabled (the amendment); otherwise the channel's action is
attempted subject to debounce if and only if the counter had reached
`requiredConsecutiveFrames`, and the counter is reset to 0. -/
theorem counter_fire_characterization (cfg : AppConfig) (st : AppState)
    (l r thr now : ℚ)
    (hcool : ¬ (now - st.double_blink_detected_time < cfg.double_blink_cooldown))
    (hnoarm : ¬ (cfg.double_blink_protection = true ∧ (l < thr ∧ r < thr) ∧
        |l - r| ≤ cfg.double_blink_threshold)) :
    ((l < thr ∧ ¬ ((l < thr ∧ r < thr) ∧ cfg.double_blink_protection = true)) →
        (process_clicks cfg st l r thr now).2.2.left_blink_counter
          = st.left_blink_counter + 1 ∧
        (process_clicks cfg st l r thr now).1 = false) ∧
    (¬ (l < thr ∧ ¬ ((l < thr ∧ r < thr) ∧ cfg.double_blink_protection = true)) →
        (process_clicks cfg st l r thr now).2.2.left_blink_counter = 0 ∧
        ((process_clicks cfg st l r thr now).1 = true ↔
          cfg.blink_consecutive_frames ≤ st.left_blink_counter ∧
          cfg.click_debounce_time < now - st.timers.last_left_click_time)) ∧
    ((r < thr ∧ ¬ ((l < thr ∧ r < thr) ∧ cfg.double_blink_protection = true)) →
        (process_clicks cfg st l r thr now).2.2.right_blink_counter
          = st.right_blink_counter + 1 ∧
        (process_clicks cfg st l r thr now).2.1 = false) ∧
    (¬ (r < thr ∧ ¬ ((l < thr ∧ r < thr) ∧ cfg.double_blink_protection = true)) →
        (process_clicks cfg st l r thr now).2.2.right_blink_counter = 0 ∧
        ((process_clicks cfg st l r thr now).2.1 = true ↔
          cfg.blink_consecutive_frames ≤ st.right_blink_counter ∧
          cfg.click_debounce_time < now - st.timers.last_right_click_time)) := by
  simp only [process_clicks, click]
  rw [if_neg hnoarm]
  rw [if_neg hcool]
  refine ⟨fun hil => ?_, fun hil => ?_, fun hir => ?_, fun hir => ?_⟩ <;>
    split_ifs <;> simp_all

/-- Witness for C5 (amended): a left-only blink frame outside the cooldown
increments the left counter from 1 to 2 and fires nothing. -/
theorem counter_fire_characterization_witness :
    (process_clicks ⟨true, 1/25, 1, 2, 1/2⟩ ⟨1, 0, 0, ⟨0, 0⟩⟩
        (1/10) (1/2) (1/5) 100).2.2.left_blink_counter = 1 + 1 ∧
    (process_clicks ⟨true, 1/25, 1, 2, 1/2⟩ ⟨1, 0, 0, ⟨0, 0⟩⟩
        (1/10) (1/2) (1/5) 100).1 = false :=
  (counter_fire_characterization ⟨true, 1/25, 1, 2, 1/2⟩ ⟨1, 0, 0, ⟨0, 0⟩⟩
    (1/10) (1/2) (1/5) 100 (by norm_num) (by norm_num)).1 (by norm_num)

/-- The adaptive smoothing factor stays in `[0, 1]` whenever the configured
base factor does. -/
theorem adaptive_smoothing_mem (cfg : MouseConfig) (dx dy : ℚ)
    (h0 : 0 ≤ cfg.smoothing) (h1 : cfg.smoothing ≤ 1) :
    0 ≤ adaptive_smoothing cfg dx dy ∧ adaptive_smoothing cfg dx dy ≤ 1 := by
  unfold adaptive_smoothing
  split_ifs
  · exact ⟨le_min (by norm_num) (by linarith), le_trans (min_le_left _ _) (by norm_num)⟩
  · exact ⟨le_trans (by norm_num) (le_max_left _ _), max_le (by norm_num) (by linarith)⟩
  · exact ⟨h0, h1⟩

/-- The clamped target of `move_mouse` lies inside `[0, screen - 1]` on
each axis. -/
theorem mouse_target_bounds (cfg : MouseConfig) (nose : ℚ × ℚ) (sensitivity : ℚ)
    (hw : 1 ≤ cfg.screen_width) (hh : 1 ≤ cfg.screen_height) :
    0 ≤ (mouse_target cfg nose sensitivity).1 ∧
    (mouse_target cfg nose sensitivity).1 ≤ cfg.screen_width - 1 ∧
    0 ≤ (mouse_target cfg nose sensitivity).2 ∧
    (mouse_target cfg nose sensitivity).2 ≤ cfg.screen_height - 1 := by
  unfold mouse_target
  exact ⟨le_max_left _ _, max_le (by linarith) (min_le_left _ _),
    le_max_left _ _, max_le (by linarith) (min_le_left _ _)⟩

/-- An affine interpolation with factor in `[0, 1]` stays between its
endpoints. -/
theorem convex_between (a t s : ℚ) (h0 : 0 ≤ s) (h1 : s ≤ 1) :
    min a t ≤ a + (t - a) * s ∧ a + (t - a) * s ≤ max a t := by
  rcases le_total a t with h | h
  · rw [min_eq_left h, max_eq_right h]
    constructor <;>
      nlinarith [mul_nonneg (sub_nonneg.mpr h) h0,
        mul_nonneg (sub_nonneg.mpr h) (sub_nonneg.mpr h1)]
  · rw [min_eq_right h, max_eq_left h]
    constructor <;>
      nlinarith [mul_nonneg (sub_nonneg.mpr h) h0,
        mul_nonneg (sub_nonneg.mpr h) (sub_nonneg.mpr h1)]

/-- Claim C8: micro-jitter suppression — when the smoothed new position
differs from the current `CursorState` by less than `minMovementThreshold`
on both axes, the update is a NoOp (no move request, state unchanged);
otherwise the new position is committed to `CursorState` and a move is
issued to the pointer surface.  The hypotheses are the operating conditions
of the deployed code: base smoothing factor in `[0, 1]` (configured 0.3), a
real screen, and a previous cursor position on the screen (it starts at
`pyautogui.position()` and only ever moves to committed on-screen
positions). -/
theorem jitter_noop_or_commit (cfg : MouseConfig) (st : CursorState) (nose : ℚ × ℚ)
    (sensitivity : ℚ)
    (hs0 : 0 ≤ cfg.smoothing) (hs1 : cfg.smoothing ≤ 1)
    (hw : 1 ≤ cfg.screen_width) (hh : 1 ≤ cfg.screen_height)
    (hx0 : 0 ≤ st.prev_mouse_x) (hx1 : st.prev_mouse_x < cfg.screen_width)
    (hy0 : 0 ≤ st.prev_mouse_y) (hy1 : st.prev_mouse_y < cfg.screen_height) :
    ((|(mouse_newpos cfg st nose sensitivity).1 - st.prev_mouse_x| < cfg.min_movement ∧
      |(mouse_newpos cfg st nose sensitivity).2 - st.prev_mouse_y| < cfg.min_movement) →
        move_mouse cfg st nose sensitivity = (none, st)) ∧
    (¬ (|(mouse_newpos cfg st nose sensitivity).1 - st.prev_mouse_x| < cfg.min_movement ∧
        |(mouse_newpos cfg st nose sensitivity).2 - st.prev_mouse_y| < cfg.min_movement) →
        move_mouse cfg st nose sensitivity =
          (some (pyInt (mouse_newpos cfg st nose sensitivity).1,
                 pyInt (mouse_newpos cfg st nose sensitivity).2),
           ⟨(mouse_newpos cfg st nose sensitivity).1,
            (mouse_newpos cfg st nose sensitivity).2⟩)) := by
  obtain ⟨ht1, ht2, ht3, ht4⟩ := mouse_target_bounds cfg nose sensitivity hw hh
  obtain ⟨hsa, hsb⟩ := adaptive_smoothing_mem cfg
    |(mouse_target cfg nose sensitivity).1 - st.prev_mouse_x|
    |(mouse_target cfg nose sensitivity).2 - st.prev_mouse_y| hs0 hs1
  have hnx := convex_between st.prev_mouse_x (mouse_target cfg nose sensitivity).1 _ hsa hsb
  have hny := convex_between st.prev_mouse_y (mouse_target cfg nose sensitivity).2 _ hsa hsb
  have hb1 : 0 ≤ (mouse_newpos cfg st nose sensitivity).1 :=
    le_trans (le_min hx0 ht1) hnx.1
  have hb2 : (mouse_newpos cfg st nose sensitivity).1 < cfg.screen_width :=
    lt_of_le_of_lt hnx.2 (max_lt hx1 (by linarith))
  have hb3 : 0 ≤ (mouse_newpos cfg st nose sensitivity).2 :=
    le_trans (le_min hy0 ht3) hny.1
  have hb4 : (mouse_newpos cfg st nose sensitivity).2 < cfg.screen_height :=
    lt_of_le_of_lt hny.2 (max_lt hy1 (by linarith))
  constructor
  · intro ⟨hmx, hmy⟩
    unfold move_mouse
    rw [if_neg]
    exact not_or.mpr ⟨not_le.mpr hmx, not_le.mpr hmy⟩
  · intro hmov
    unfold move_mouse
    rw [if_pos, if_pos]
    · exact ⟨hb1, hb2, hb3, hb4⟩
    · rcases not_and_or.mp hmov with h | h
      · exact Or.inl (not_lt.mp h)
      · exact Or.inr (not_lt.mp h)

/-- Witness for C8: with the cursor already at the mapped target
`(960, 540)` the smoothed movement is zero on both axes, below the
2-pixel threshold, so the update is a NoOp. -/
theorem jitter_noop_or_commit_witness :
    move_mouse ⟨1920, 1080, 3/10, 7/10, 3/10, 7/10, false, false, 3/10, 2⟩
      ⟨960, 540⟩ (1/2, 1/2) 1 = (none, ⟨960, 540⟩) :=
  (jitter_noop_or_commit ⟨1920, 1080, 3/10, 7/10, 3/10, 7/10, false, false, 3/10, 2⟩
    ⟨960, 540⟩ (1/2, 1/2) 1 (by norm_num) (by norm_num) (by norm_num) (by norm_num)
    (by norm_num) (by norm_num) (by norm_num) (by norm_num)).1
    (by constructor <;>
      norm_num [mouse_newpos, mouse_target, adaptive_smoothing, map_value,
        min_def, max_def, abs])

end PiskClick
